import Mathlib

/-
Verification development for the registry_sync repository.

The two Python scripts (src/registry_sync.py and src/registry_tag_dump.py)
shell out to the external tool /bin/skopeo and are otherwise straight-line
code around a task queue.  We embed them shallowly:

* every subprocess invocation is recorded as a `ToolCall` carrying the exact
  argv list the source builds;
* the outcome of each subprocess is given by an oracle (`Skopeo`) mapping an
  argv to an exit status, and, for inspect, to the parsed JSON output;
* `sys.exit(code)` is modelled as the current computation terminating with
  `Outcome.exit code`, and an uncaught KeyError on a dictionary lookup as
  `Outcome.keyError key`.  Where that computation runs matters: in the main
  thread (configuration loading, the post-join export phase) a sys.exit
  really terminates the process and an uncaught exception crashes it, but
  inside a daemon worker thread both merely kill that one thread - the
  thread bootstrap swallows SystemExit - so the job being processed is
  never marked done, the surviving workers keep draining the queue, and
  sync_queue.join() in the main thread then blocks forever (RunOutcome.hung);
* the concurrent drain of the task queue is modelled by the canonical
  schedule that processes the enqueued jobs in order, tracking how many
  worker threads are still alive.  Per-job behaviour is independent of the
  interleaving (each job is owned by one worker for its whole lifetime), so
  the per-job traces, the event counts and the satisfiability of the drain
  barrier are schedule-independent.
-/

/-- Python values as they occur in the loaded YAML configuration: strings,
booleans, a flat string dictionary (the credentials mapping), a list of
strings (the result of rsplit), and a list of string dictionaries (the
container_images list). -/
inductive PyVal where
  | str (s : String)
  | bool (b : Bool)
  | strList (xs : List String)
  | strDict (entries : List (String × String))
  | dictList (elems : List (List (String × String)))
  deriving DecidableEq, Repr

/-- Python equality of an arbitrary value against a string literal, as in
the source comparisons with the literal string true: only a str compares
equal to a str (a Python bool or any other type is never == to a str). -/
def pyEqStr : PyVal → String → Bool
  | PyVal.str a, b => a == b
  | _, _ => false

/-- Python + on the values above: str + str and list + list concatenate;
any mixed combination (in particular str + list) raises TypeError, which we
model as `none`. -/
def pyAdd : PyVal → PyVal → Option PyVal
  | PyVal.str a, PyVal.str b => some (PyVal.str (a ++ b))
  | PyVal.strList a, PyVal.strList b => some (PyVal.strList (a ++ b))
  | _, _ => none

/-- Python str.rsplit with separator colon and maxsplit 1: split off the
part after the last colon; a string with no colon yields a one-element
list. -/
def rsplitColon1 (s : String) : List String :=
  match (s.splitOn ":").reverse with
  | [] => [s]
  | [x] => [x]
  | last :: rest => [String.intercalate ":" rest.reverse, last]

/-- The truthiness test applied by the dump tool to its tag argument
(`if not tag`): the argparse default False and the empty string are falsy,
a non-empty string is truthy. -/
def pyTruthy : Option String → Bool
  | none => false
  | some s => !(s == "")

/-- The Labels mapping of an inspect result.  The external-tool contract
guarantees the keys version, release and name, which are the only ones the
source reads, so they are fields here. -/
structure ImageLabels where
  version : String
  release : String
  name : String
  deriving DecidableEq, Repr

/-- The parsed JSON output of an inspect call: the fields the source
reads. -/
structure ImageInfo where
  Name : String
  Digest : String
  Labels : ImageLabels
  deriving DecidableEq, Repr

/-- One recorded subprocess invocation, labelled by the wrapper function in
the source that issued it (read_image, copy_image, rename_image_tag) and
carrying the exact argv list built there. -/
inductive ToolCall where
  | inspect (argv : List String)
  | copy (argv : List String)
  | retag (argv : List String)
  deriving DecidableEq, Repr

/-- The argv list of a recorded call. -/
def ToolCall.argv : ToolCall → List String
  | ToolCall.inspect a => a
  | ToolCall.copy a => a
  | ToolCall.retag a => a

/-- Whether a recorded call came from copy_image. -/
def ToolCall.isCopyCall : ToolCall → Bool
  | ToolCall.copy _ => true
  | _ => false

/-- Whether a recorded call came from rename_image_tag. -/
def ToolCall.isRetagCall : ToolCall → Bool
  | ToolCall.retag _ => true
  | _ => false

/-- Whether a recorded call came from read_image. -/
def ToolCall.isInspectCall : ToolCall → Bool
  | ToolCall.inspect _ => true
  | _ => false

/-- Oracle for the external tool: whether a given invocation exits zero,
and the parsed JSON an inspect invocation produces when it succeeds. -/
structure Skopeo where
  exitOk : List String → Bool
  inspectOut : List String → ImageInfo

/-- Result of a computation in the embedded programs: normal value,
`sys.exit(code)`, or an uncaught KeyError on the given dictionary key.
Inside a worker thread both failure constructors mean the death of that
thread only: the thread bootstrap swallows SystemExit silently and prints a
traceback for any other uncaught exception, and in both cases the thread
ends without having called task_done. -/
inductive Outcome (α : Type) where
  | ok (a : α)
  | exit (code : Nat)
  | keyError (key : String)
  deriving DecidableEq, Repr

/-- Terminal behaviour of a whole run of main.  `exit` and `keyError` can
only arise in the main thread (a sys.exit there really terminates the
process with that code; an uncaught KeyError there prints a traceback and
the process exits non-zero).  `hung` is the fate of a run in which some
enqueued job was never marked done - because the worker processing it died
(the listed per-job failures, in job order) or because no live worker was
left to dequeue it: sync_queue.join() then blocks forever and the process
never terminates. -/
inductive RunOutcome where
  | ok
  | exit (code : Nat)
  | keyError (key : String)
  | hung (failures : List (Outcome Unit))
  deriving DecidableEq, Repr

/-- The loaded YAML configuration: a dictionary from keys to values. -/
structure Config where
  entries : List (String × PyVal)
  deriving DecidableEq, Repr

/-- Dictionary lookup, `config[key]`; `none` models a KeyError. -/
def Config.get (c : Config) (k : String) : Option PyVal :=
  c.entries.lookup k

/-- Lookup of a key whose value the source consumes as a string (it is
concatenated into an argv); missing key or non-string value fails. -/
def Config.getStr (c : Config) (k : String) : Option String :=
  match c.get k with
  | some (PyVal.str s) => some s
  | _ => none

/-- Nested lookup into the credentials dictionary, as in
source_registry_credentials then user or token. -/
def Config.cred (c : Config) (k : String) : Option String :=
  match c.get "source_registry_credentials" with
  | some (PyVal.strDict d) => d.lookup k
  | _ => none

/-- skopeo_cmd from the source. -/
def skopeo_cmd : String := "/bin/skopeo"

namespace RegistrySync

/-- The argv of the inspect invocation built at lines 88 to 90 of
src/registry_sync.py. -/
def inspectArgv (source_registry_user source_registry_token source_image
    source_tls_verify source_registry_type : String) : List String :=
  [skopeo_cmd, "inspect", "--tls-verify=" ++ source_tls_verify, "--creds",
   source_registry_user ++ ":" ++ source_registry_token,
   source_registry_type ++ source_image]

/-- read_image from src/registry_sync.py: one inspect invocation; on a
non-zero exit the except branch prints and calls sys.exit(1), otherwise the
stdout is parsed as JSON and returned. -/
def read_image (sk : Skopeo) (source_registry_user source_registry_token source_image
    source_tls_verify source_registry_type : String) : List ToolCall × Except Nat ImageInfo :=
  let argv := inspectArgv source_registry_user source_registry_token source_image
      source_tls_verify source_registry_type
  if sk.exitOk argv then ([ToolCall.inspect argv], Except.ok (sk.inspectOut argv))
  else ([ToolCall.inspect argv], Except.error 1)

/-- The source reference both copy invocations read (lines 121 to 122 and
132 to 133 of src/registry_sync.py): the inspected Name tagged
version-release, prefixed by the source registry type. -/
def copySrcRef (image_info : ImageInfo) (source_registry_type : String) : String :=
  source_registry_type ++ image_info.Name ++ ":" ++ image_info.Labels.version
    ++ "-" ++ image_info.Labels.release

/-- The argv of the first copy invocation (lines 119 to 125): destination
tagged version-release.  The destination reference concatenates the
namespace and the name label directly, with no separator between them. -/
def copyVersionedArgv (source_registry_user source_registry_token : String)
    (image_info : ImageInfo) (source_tls_verify source_registry_type destination_tls_verify
    destination_registry_type destination_registry_namespace : String) : List String :=
  [skopeo_cmd, "copy", "--src-tls-verify=" ++ source_tls_verify,
   "--src-creds", source_registry_user ++ ":" ++ source_registry_token,
   "--dest-tls-verify=" ++ destination_tls_verify,
   copySrcRef image_info source_registry_type,
   destination_registry_type ++ destination_registry_namespace ++ image_info.Labels.name
     ++ ":" ++ image_info.Labels.version ++ "-" ++ image_info.Labels.release]

/-- The argv of the second copy invocation (lines 130 to 135): same source
reference, destination tagged with the configured destination tag. -/
def copyFloatingArgv (source_registry_user source_registry_token : String)
    (image_info : ImageInfo) (source_tls_verify source_registry_type destination_tls_verify
    destination_registry_type destination_registry_namespace
    destination_image_tag : String) : List String :=
  [skopeo_cmd, "copy", "--src-tls-verify=" ++ source_tls_verify,
   "--src-creds", source_registry_user ++ ":" ++ source_registry_token,
   "--dest-tls-verify=" ++ destination_tls_verify,
   copySrcRef image_info source_registry_type,
   destination_registry_type ++ destination_registry_namespace ++ image_info.Labels.name
     ++ ":" ++ destination_image_tag]

/-- copy_image from src/registry_sync.py: first the copy to the
version-release tag, then (only if the first exits zero) the copy of the
same source reference to the destination tag; a non-zero exit of either
calls sys.exit(1). -/
def copy_image (sk : Skopeo) (source_registry_user source_registry_token : String)
    (image_info : ImageInfo) (source_tls_verify source_registry_type destination_tls_verify
    destination_registry_type destination_registry_namespace destination_image_tag : String) :
    List ToolCall × Except Nat Unit :=
  let argvVersioned := copyVersionedArgv source_registry_user source_registry_token
      image_info source_tls_verify source_registry_type destination_tls_verify
      destination_registry_type destination_registry_namespace
  if sk.exitOk argvVersioned then
    let argvFloating := copyFloatingArgv source_registry_user source_registry_token
        image_info source_tls_verify source_registry_type destination_tls_verify
        destination_registry_type destination_registry_namespace destination_image_tag
    if sk.exitOk argvFloating then
      ([ToolCall.copy argvVersioned, ToolCall.copy argvFloating], Except.ok ())
    else ([ToolCall.copy argvVersioned, ToolCall.copy argvFloating], Except.error 1)
  else ([ToolCall.copy argvVersioned], Except.error 1)

/-- The argv of the retag invocation built at lines 157 to 162 of
src/registry_sync.py: both references live in the destination registry and
concatenate the namespace and the name label directly, with no
separator. -/
def retagArgv (image_info : ImageInfo) (destination_tls_verify destination_registry_type
    destination_registry_namespace old_image_tag new_image_tag : String) : List String :=
  [skopeo_cmd, "copy", "--src-tls-verify=" ++ destination_tls_verify,
   "--dest-tls-verify=" ++ destination_tls_verify,
   destination_registry_type ++ destination_registry_namespace ++ image_info.Labels.name
     ++ ":" ++ old_image_tag,
   destination_registry_type ++ destination_registry_namespace ++ image_info.Labels.name
     ++ ":" ++ new_image_tag]

/-- rename_image_tag from src/registry_sync.py: one copy invocation inside
the destination registry, from the old tag to the new tag; a non-zero exit
calls sys.exit(1). -/
def rename_image_tag (sk : Skopeo) (image_info : ImageInfo) (destination_tls_verify
    destination_registry_type destination_registry_namespace old_image_tag
    new_image_tag : String) : List ToolCall × Except Nat Unit :=
  let argv := retagArgv image_info destination_tls_verify destination_registry_type
      destination_registry_namespace old_image_tag new_image_tag
  if sk.exitOk argv then ([ToolCall.retag argv], Except.ok ())
  else ([ToolCall.retag argv], Except.error 1)

end RegistrySync

/-- Observable events of a sync run, in program order under the sequential
schedule: a recorded subprocess call, a put on the out queue, a task_done
acknowledgement, a worker thread start, an enqueue of a job, and the final
export-list write. -/
inductive Event where
  | tool (c : ToolCall)
  | outPut (info : ImageInfo)
  | taskDone
  | workerStarted
  | enqueue (container_image : List (String × String))
  | exportWrite (filename : String) (entries : List (String × String))
  deriving DecidableEq, Repr

/-- Whether an event is a recorded subprocess call whose exit status under
the given oracle is non-zero. -/
def Event.isFailedTool (sk : Skopeo) : Event → Bool
  | Event.tool c => !(sk.exitOk c.argv)
  | _ => false

/-- Whether an event is an inspect invocation. -/
def Event.isInspect : Event → Bool
  | Event.tool (ToolCall.inspect _) => true
  | _ => false

/-- Whether an event is a copy_image invocation. -/
def Event.isCopy : Event → Bool
  | Event.tool (ToolCall.copy _) => true
  | _ => false

/-- Whether an event is a rename_image_tag (retag) invocation. -/
def Event.isRetag : Event → Bool
  | Event.tool (ToolCall.retag _) => true
  | _ => false

/-- Whether an event is a task_done acknowledgement. -/
def Event.isTaskDone : Event → Bool
  | Event.taskDone => true
  | _ => false

/-- Whether an event is an enqueue of a job. -/
def Event.isEnqueue : Event → Bool
  | Event.enqueue _ => true
  | _ => false

/-- Whether an event is a worker thread start. -/
def Event.isWorkerStarted : Event → Bool
  | Event.workerStarted => true
  | _ => false

/-- Whether an event is the export-list write. -/
def Event.isExportWrite : Event → Bool
  | Event.exportWrite _ _ => true
  | _ => false

/-- The subprocess calls recorded in a trace, in order. -/
def toolCallsOf (evs : List Event) : List ToolCall :=
  evs.filterMap fun e => match e with | Event.tool c => some c | _ => none

/-- The images put on the out queue during a trace, in order. -/
def outQueueOf (evs : List Event) : List ImageInfo :=
  evs.filterMap fun e => match e with | Event.outPut i => some i | _ => none

namespace RegistrySync

/-- The bundle of values the worker reads from the configuration before
calling read_image (lines 41 to 44 of src/registry_sync.py), in argument
evaluation order. -/
structure SrcParams where
  user : String
  token : String
  imagename : String
  stls : String
  stype : String

/-- The configuration lookups performed while evaluating the arguments of
the read_image call, in order; the error is the first missing key. -/
def srcLookups (container_image : List (String × String)) (cfg : Config) :
    Except String SrcParams :=
  match cfg.cred "user" with
  | none => Except.error "user"
  | some user =>
  match cfg.cred "token" with
  | none => Except.error "token"
  | some token =>
  match container_image.lookup "imagename" with
  | none => Except.error "imagename"
  | some imagename =>
  match cfg.getStr "source_tls_verify" with
  | none => Except.error "source_tls_verify"
  | some stls =>
  match cfg.getStr "source_registry_type" with
  | none => Except.error "source_registry_type"
  | some stype => Except.ok ⟨user, token, imagename, stls, stype⟩

/-- The destination-side values read from the configuration by the rename
and copy argument lists (same keys, same relative order in both). -/
structure DestParams where
  dtls : String
  dtype : String
  ns : String
  dtag : String

/-- The destination-side configuration lookups, in the order the argument
lists of rename_image_tag and copy_image evaluate them. -/
def destLookups (cfg : Config) : Except String DestParams :=
  match cfg.getStr "destination_tls_verify" with
  | none => Except.error "destination_tls_verify"
  | some dtls =>
  match cfg.getStr "destination_registry_type" with
  | none => Except.error "destination_registry_type"
  | some dtype =>
  match cfg.getStr "destination_registry_namespace" with
  | none => Except.error "destination_registry_namespace"
  | some ns =>
  match cfg.getStr "destination_image_tag" with
  | none => Except.error "destination_image_tag"
  | some dtag => Except.ok ⟨dtls, dtype, ns, dtag⟩

/-- The rename branch body (lines 49 to 56): look up tag_to_rename and call
rename_image_tag with the destination parameters. -/
def renamePhase (sk : Skopeo) (image_info : ImageInfo) (d : DestParams) (cfg : Config) :
    List ToolCall × Outcome Unit :=
  match cfg.getStr "tag_to_rename" with
  | none => ([], Outcome.keyError "tag_to_rename")
  | some newTag =>
    match rename_image_tag sk image_info d.dtls d.dtype d.ns d.dtag newTag with
    | (tc, Except.ok _) => (tc, Outcome.ok ())
    | (tc, Except.error c) => (tc, Outcome.exit c)

/-- One iteration of RegistrySyncWorker.run (lines 39 to 70 of
src/registry_sync.py) on a dequeued job: read_image, put the result on the
out queue, then unless no_modify holds the optional rename branch and the
copy, and finally task_done.  Failure paths (sys.exit inside a wrapper, or
a KeyError on a configuration lookup) terminate the iteration before
task_done. -/
def workerBody (sk : Skopeo) (container_image : List (String × String)) (cfg : Config)
    (no_modify : Bool) : List Event × Outcome Unit :=
  match srcLookups container_image cfg with
  | Except.error k => ([], Outcome.keyError k)
  | Except.ok p =>
  match read_image sk p.user p.token p.imagename p.stls p.stype with
  | (tc, Except.error c) => (tc.map Event.tool, Outcome.exit c)
  | (tc, Except.ok image_info) =>
  let ev0 := tc.map Event.tool ++ [Event.outPut image_info]
  if no_modify then (ev0 ++ [Event.taskDone], Outcome.ok ())
  else
    match cfg.get "rename_old_tag" with
    | none => (ev0, Outcome.keyError "rename_old_tag")
    | some v =>
    match destLookups cfg with
    | Except.error k => (ev0, Outcome.keyError k)
    | Except.ok d =>
    match (if pyEqStr v "true" then renamePhase sk image_info d cfg
           else ([], Outcome.ok ())) with
    | (rtc, Outcome.exit c) => (ev0 ++ rtc.map Event.tool, Outcome.exit c)
    | (rtc, Outcome.keyError k) => (ev0 ++ rtc.map Event.tool, Outcome.keyError k)
    | (rtc, Outcome.ok _) =>
    match copy_image sk p.user p.token image_info p.stls p.stype d.dtls d.dtype d.ns
        d.dtag with
    | (ctc, Except.error c) =>
        (ev0 ++ rtc.map Event.tool ++ ctc.map Event.tool, Outcome.exit c)
    | (ctc, Except.ok _) =>
        (ev0 ++ rtc.map Event.tool ++ ctc.map Event.tool ++ [Event.taskDone],
         Outcome.ok ())

/-- Result of attempting to load the configuration file: a parsed
dictionary, an IOError (file missing), or a YAML scanner or parser
error. -/
inductive LoadResult where
  | ok (c : Config)
  | ioError (msg : String)
  | yamlError

/-- load_config from src/registry_sync.py: both except branches print an
error and call sys.exit(1). -/
def load_config (r : LoadResult) : Except Nat Config :=
  match r with
  | LoadResult.ok c => Except.ok c
  | LoadResult.ioError _ => Except.error 1
  | LoadResult.yamlError => Except.error 1

/-- Result of draining the task queue: the events of all iterations that
ran, the outcomes of the iterations that killed their worker thread (in job
order - these jobs were dequeued but never marked done), and the number of
jobs never dequeued because no live worker was left.  The drain barrier
(sync_queue.join at line 256) is satisfied exactly when failures is empty
and pending is zero. -/
structure DrainResult where
  events : List Event
  failures : List (Outcome Unit)
  pending : Nat
  deriving DecidableEq, Repr

/-- The drain of the task queue under the canonical schedule that processes
the enqueued jobs in order (per-job behaviour does not depend on the
interleaving, since each job is owned by one worker for its whole
lifetime).  The Nat argument is the number of live worker threads.  An
iteration that fails - sys.exit(1) raising SystemExit inside the thread,
or an uncaught KeyError - kills only its own worker: the job it held is
never marked done, but the surviving workers keep dequeuing and fully
processing the remaining jobs.  When no live worker remains, the remaining
jobs are never dequeued at all. -/
def drain (sk : Skopeo) (cfg : Config) (no_modify : Bool) :
    Nat → List (List (String × String)) → DrainResult
  | _, [] => ⟨[], [], 0⟩
  | 0, ci :: rest => ⟨[], [], (ci :: rest).length⟩
  | Nat.succ alive, ci :: rest =>
    match workerBody sk ci cfg no_modify with
    | (evs, Outcome.ok _) =>
      let r := drain sk cfg no_modify (Nat.succ alive) rest
      ⟨evs ++ r.events, r.failures, r.pending⟩
    | (evs, Outcome.exit c) =>
      let r := drain sk cfg no_modify alive rest
      ⟨evs ++ r.events, Outcome.exit c :: r.failures, r.pending⟩
    | (evs, Outcome.keyError k) =>
      let r := drain sk cfg no_modify alive rest
      ⟨evs ++ r.events, Outcome.keyError k :: r.failures, r.pending⟩

/-- write_image_list from src/registry_sync.py, as the event it emits: the
out-queue entries are serialised as imagename (Name colon version dash
release) and digest pairs into the named file. -/
def write_image_list (infos : List ImageInfo) (filename : String) : Event :=
  Event.exportWrite filename (infos.map fun info =>
    (info.Name ++ ":" ++ info.Labels.version ++ "-" ++ info.Labels.release, info.Digest))

/-- The steps of main after the drain barrier (lines 258 to 259): the
write_image_export_list comparison against the literal string true, and on
the true branch the image_export_list lookup and the export write. -/
def exportPhase (cfg : Config) (drained : List Event) : List Event × Outcome Unit :=
  match cfg.get "write_image_export_list" with
  | none => ([], Outcome.keyError "write_image_export_list")
  | some w =>
    if pyEqStr w "true" then
      match cfg.getStr "image_export_list" with
      | none => ([], Outcome.keyError "image_export_list")
      | some filename => ([write_image_list (outQueueOf drained) filename], Outcome.ok ())
    else ([], Outcome.ok ())

/-- main from src/registry_sync.py: load the configuration (exit 1 on
failure, in the main thread, before any worker starts or any job is
enqueued), start the worker threads, enqueue one job per configured image,
then wait on the drain barrier.  sync_queue.join() returns only when every
enqueued job has been marked done; if any worker died holding a job, or no
live worker was left for a pending job, the join blocks forever and the run
hangs - the worker failures never become a process exit.  Only when the
join returns does the main thread run the export phase (whose own KeyError
is a main-thread crash). -/
def mainRun (r : LoadResult) (sk : Skopeo) (threads : Nat) (no_modify : Bool) :
    List Event × RunOutcome :=
  match load_config r with
  | Except.error c => ([], RunOutcome.exit c)
  | Except.ok cfg =>
  let startEvs := List.replicate threads Event.workerStarted
  match cfg.get "container_images" with
  | some (PyVal.dictList images) =>
    let enqEvs := images.map Event.enqueue
    let d := drain sk cfg no_modify threads images
    if d.failures.isEmpty && d.pending == 0 then
      match exportPhase cfg d.events with
      | (xevs, Outcome.ok _) => (startEvs ++ enqEvs ++ d.events ++ xevs, RunOutcome.ok)
      | (xevs, Outcome.exit c) =>
          (startEvs ++ enqEvs ++ d.events ++ xevs, RunOutcome.exit c)
      | (xevs, Outcome.keyError k) =>
          (startEvs ++ enqEvs ++ d.events ++ xevs, RunOutcome.keyError k)
    else (startEvs ++ enqEvs ++ d.events, RunOutcome.hung d.failures)
  | _ => (startEvs, RunOutcome.keyError "container_images")

/-- The configuration keys a run can look up, all present with the types
the source consumes them at: the credentials user and token, the five
source and destination string-typed keys, rename_old_tag (any value, it is
only compared for equality), tag_to_rename when the rename comparison
succeeds, write_image_export_list (any value), image_export_list when the
export comparison succeeds, and a container_images list whose every entry
has an imagename. -/
def Config.wellFormed (c : Config) : Bool :=
  (c.cred "user").isSome && (c.cred "token").isSome &&
  (c.getStr "source_tls_verify").isSome && (c.getStr "source_registry_type").isSome &&
  (c.getStr "destination_tls_verify").isSome &&
  (c.getStr "destination_registry_type").isSome &&
  (c.getStr "destination_registry_namespace").isSome &&
  (c.getStr "destination_image_tag").isSome &&
  (match c.get "rename_old_tag" with
   | some v => !pyEqStr v "true" || (c.getStr "tag_to_rename").isSome
   | none => false) &&
  (match c.get "write_image_export_list" with
   | some w => !pyEqStr w "true" || (c.getStr "image_export_list").isSome
   | none => false) &&
  (match c.get "container_images" with
   | some (PyVal.dictList images) =>
       images.all fun ci => (ci.lookup "imagename").isSome
   | _ => false)

/-- Whether the rename branch condition at line 49 holds: the value of
rename_old_tag compares equal to the literal string true. -/
def renameEnabled (c : Config) : Bool :=
  match c.get "rename_old_tag" with
  | some v => pyEqStr v "true"
  | none => false

/-- Whether the export branch condition at line 258 holds: the value of
write_image_export_list compares equal to the literal string true. -/
def exportEnabled (c : Config) : Bool :=
  match c.get "write_image_export_list" with
  | some w => pyEqStr w "true"
  | none => false

/-- The number of configured images. -/
def numImages (c : Config) : Nat :=
  match c.get "container_images" with
  | some (PyVal.dictList images) => images.length
  | _ => 0

end RegistrySync

namespace RegistryTagDump

/-- The expression building the inspected reference on the tag-override
branch of read_image (line 84 of src/registry_tag_dump.py), with Python
typing made explicit: source_registry_type + source_image.rsplit(colon, 1)
+ colon + tag, associated to the left.  rsplit returns a list, so the first
+ is str + list. -/
def tagRefExpr (source_registry_type source_image tag : String) : Option PyVal :=
  (pyAdd (PyVal.str source_registry_type) (PyVal.strList (rsplitColon1 source_image))).bind
    fun a => (pyAdd a (PyVal.str ":")).bind
    fun b => pyAdd b (PyVal.str tag)

/-- read_image from src/registry_tag_dump.py: when the tag argument is
falsy, a plain inspect of the configured reference; when it is truthy, the
inspect of the reference built by tagRefExpr.  `none` models the TypeError
raised while building that reference, before any subprocess is invoked. -/
def read_image (sk : Skopeo) (source_registry_user source_registry_token source_image
    source_tls_verify source_registry_type : String) (tag : Option String) :
    Option (List ToolCall × Except Nat ImageInfo) :=
  if pyTruthy tag = false then
    let argv := [skopeo_cmd, "inspect", "--tls-verify=" ++ source_tls_verify, "--creds",
                 source_registry_user ++ ":" ++ source_registry_token,
                 source_registry_type ++ source_image]
    some (if sk.exitOk argv then ([ToolCall.inspect argv], Except.ok (sk.inspectOut argv))
          else ([ToolCall.inspect argv], Except.error 1))
  else
    match tagRefExpr source_registry_type source_image (tag.getD "") with
    | some (PyVal.str ref) =>
      let argv := [skopeo_cmd, "inspect", "--tls-verify=" ++ source_tls_verify, "--creds",
                   source_registry_user ++ ":" ++ source_registry_token, ref]
      some (if sk.exitOk argv then ([ToolCall.inspect argv], Except.ok (sk.inspectOut argv))
            else ([ToolCall.inspect argv], Except.error 1))
    | _ => none

end RegistryTagDump

/-- A concrete configuration with every key present, shaped like the
sample configuration the scripts document. -/
def cfgSample : Config := ⟨[
  ("source_registry_credentials", PyVal.strDict [("user", "u"), ("token", "tk")]),
  ("source_tls_verify", PyVal.str "false"),
  ("source_registry_type", PyVal.str "docker://"),
  ("destination_tls_verify", PyVal.str "false"),
  ("destination_registry_type", PyVal.str "docker://"),
  ("destination_registry_namespace", PyVal.str "destns/"),
  ("destination_image_tag", PyVal.str "latest"),
  ("rename_old_tag", PyVal.str "true"),
  ("tag_to_rename", PyVal.str "previous"),
  ("write_image_export_list", PyVal.str "false"),
  ("container_images", PyVal.dictList [[("imagename", "ns/app")]])]⟩

/-- The same configuration without the two keys the spec marks optional,
rename_old_tag (with its companion tag_to_rename) and
write_image_export_list. -/
def cfgNoOptionalKeys : Config := ⟨[
  ("source_registry_credentials", PyVal.strDict [("user", "u"), ("token", "tk")]),
  ("source_tls_verify", PyVal.str "false"),
  ("source_registry_type", PyVal.str "docker://"),
  ("destination_tls_verify", PyVal.str "false"),
  ("destination_registry_type", PyVal.str "docker://"),
  ("destination_registry_namespace", PyVal.str "destns/"),
  ("destination_image_tag", PyVal.str "latest"),
  ("container_images", PyVal.dictList [[("imagename", "ns/app")]])]⟩

/-- A concrete inspect result. -/
def infoSample : ImageInfo :=
  ⟨"registry.example.com/ns/app", "sha256:abc", ⟨"1.0", "2", "app"⟩⟩

/-- Oracle under which every external invocation exits zero. -/
def skAll : Skopeo := ⟨fun _ => true, fun _ => infoSample⟩

/-- Oracle under which every external invocation exits non-zero. -/
def skNone : Skopeo := ⟨fun _ => false, fun _ => infoSample⟩

/-- A three-image configuration with the rename policy and the export list
disabled, for exercising a batch in which one job fails and the others do
not. -/
def cfgThree : Config := ⟨[
  ("source_registry_credentials", PyVal.strDict [("user", "u"), ("token", "tk")]),
  ("source_tls_verify", PyVal.str "false"),
  ("source_registry_type", PyVal.str "docker://"),
  ("destination_tls_verify", PyVal.str "false"),
  ("destination_registry_type", PyVal.str "docker://"),
  ("destination_registry_namespace", PyVal.str "destns/"),
  ("destination_image_tag", PyVal.str "latest"),
  ("rename_old_tag", PyVal.str "false"),
  ("write_image_export_list", PyVal.str "false"),
  ("container_images", PyVal.dictList
    [[("imagename", "ns/app1")], [("imagename", "ns/app2")],
     [("imagename", "ns/app3")]])]⟩

/-- Oracle under which exactly the inspect of ns/app1 exits non-zero (its
argv carries the reference docker://ns/app1 at position 5) and every other
invocation exits zero. -/
def skFailFirst : Skopeo :=
  ⟨fun argv => !(argv.getD 5 "" == "docker://ns/app1"), fun _ => infoSample⟩

/-- A configuration in which rename_old_tag is a YAML boolean true and
write_image_export_list is the string True: both branch comparisons against
the literal string true are false. -/
def cfgBoolRename : Config := ⟨[
  ("source_registry_credentials", PyVal.strDict [("user", "u"), ("token", "tk")]),
  ("source_tls_verify", PyVal.str "false"),
  ("source_registry_type", PyVal.str "docker://"),
  ("destination_tls_verify", PyVal.str "false"),
  ("destination_registry_type", PyVal.str "docker://"),
  ("destination_registry_namespace", PyVal.str "destns/"),
  ("destination_image_tag", PyVal.str "latest"),
  ("rename_old_tag", PyVal.bool true),
  ("tag_to_rename", PyVal.str "previous"),
  ("write_image_export_list", PyVal.str "True"),
  ("container_images", PyVal.dictList [[("imagename", "ns/app")]])]⟩

/-! Helper lemmas. -/

theorem pyEqStr_iff (v : PyVal) (s : String) : pyEqStr v s = true ↔ v = PyVal.str s := by
  cases v <;> simp [pyEqStr]

namespace RegistrySync

theorem read_image_error_cases (sk : Skopeo) (u t i s r : String) (tc : List ToolCall)
    (c : Nat) (h : read_image sk u t i s r = (tc, Except.error c)) :
    c = 1 ∧ ∃ a, tc = [ToolCall.inspect a] ∧ sk.exitOk a = false := by
  simp only [read_image] at h
  split at h
  next hok => simp at h
  next hfail =>
    rw [Bool.not_eq_true] at hfail
    simp only [Prod.mk.injEq] at h
    obtain ⟨h1, h2⟩ := h
    injection h2 with h2
    exact ⟨h2.symm, _, h1.symm, hfail⟩

theorem read_image_ok_cases (sk : Skopeo) (u t i s r : String) (tc : List ToolCall)
    (info : ImageInfo) (h : read_image sk u t i s r = (tc, Except.ok info)) :
    ∃ a, tc = [ToolCall.inspect a] ∧ sk.exitOk a = true := by
  simp only [read_image] at h
  split at h
  next hok =>
    simp only [Prod.mk.injEq] at h
    exact ⟨_, h.1.symm, hok⟩
  next hfail => simp at h

end RegistrySync

namespace RegistrySync

theorem copy_image_ok_cases (sk : Skopeo) (u t : String) (info : ImageInfo)
    (stls stype dtls dtype ns dtag : String) (tc : List ToolCall)
    (h : copy_image sk u t info stls stype dtls dtype ns dtag = (tc, Except.ok ())) :
    ∃ a b, tc = [ToolCall.copy a, ToolCall.copy b] ∧ sk.exitOk a = true ∧
      sk.exitOk b = true := by
  simp only [copy_image] at h
  split at h
  next h1 =>
    split at h
    next h2 =>
      simp only [Prod.mk.injEq] at h
      exact ⟨_, _, h.1.symm, h1, h2⟩
    next h2 => simp at h
  next h1 => simp at h

theorem copy_image_error_cases (sk : Skopeo) (u t : String) (info : ImageInfo)
    (stls stype dtls dtype ns dtag : String) (tc : List ToolCall) (c : Nat)
    (h : copy_image sk u t info stls stype dtls dtype ns dtag = (tc, Except.error c)) :
    c = 1 ∧ ((∃ a, tc = [ToolCall.copy a] ∧ sk.exitOk a = false) ∨
      (∃ a b, tc = [ToolCall.copy a, ToolCall.copy b] ∧ sk.exitOk a = true ∧
        sk.exitOk b = false)) := by
  simp only [copy_image] at h
  split at h
  next h1 =>
    split at h
    next h2 => simp at h
    next h2 =>
      rw [Bool.not_eq_true] at h2
      simp only [Prod.mk.injEq] at h
      obtain ⟨ha, hb⟩ := h
      injection hb with hb
      exact ⟨hb.symm, Or.inr ⟨_, _, ha.symm, h1, h2⟩⟩
  next h1 =>
    rw [Bool.not_eq_true] at h1
    simp only [Prod.mk.injEq] at h
    obtain ⟨ha, hb⟩ := h
    injection hb with hb
    exact ⟨hb.symm, Or.inl ⟨_, ha.symm, h1⟩⟩

theorem rename_image_tag_ok_cases (sk : Skopeo) (info : ImageInfo)
    (dtls dtype ns old new : String) (tc : List ToolCall)
    (h : rename_image_tag sk info dtls dtype ns old new = (tc, Except.ok ())) :
    ∃ a, tc = [ToolCall.retag a] ∧ sk.exitOk a = true := by
  simp only [rename_image_tag] at h
  split at h
  next hok =>
    simp only [Prod.mk.injEq] at h
    exact ⟨_, h.1.symm, hok⟩
  next hfail => simp at h

theorem rename_image_tag_error_cases (sk : Skopeo) (info : ImageInfo)
    (dtls dtype ns old new : String) (tc : List ToolCall) (c : Nat)
    (h : rename_image_tag sk info dtls dtype ns old new = (tc, Except.error c)) :
    c = 1 ∧ ∃ a, tc = [ToolCall.retag a] ∧ sk.exitOk a = false := by
  simp only [rename_image_tag] at h
  split at h
  next hok => simp at h
  next hfail =>
    rw [Bool.not_eq_true] at hfail
    simp only [Prod.mk.injEq] at h
    obtain ⟨h1, h2⟩ := h
    injection h2 with h2
    exact ⟨h2.symm, _, h1.symm, hfail⟩

theorem renamePhase_ok_cases (sk : Skopeo) (info : ImageInfo) (d : DestParams)
    (cfg : Config) (tc : List ToolCall)
    (h : renamePhase sk info d cfg = (tc, Outcome.ok ())) :
    ∃ a, tc = [ToolCall.retag a] ∧ sk.exitOk a = true := by
  unfold renamePhase at h
  split at h
  · simp at h
  · split at h
    next heq =>
      simp only [Prod.mk.injEq] at h
      obtain ⟨h1, _⟩ := h
      subst h1
      exact rename_image_tag_ok_cases _ _ _ _ _ _ _ _ heq
    next heq => simp at h

theorem renamePhase_exit_cases (sk : Skopeo) (info : ImageInfo) (d : DestParams)
    (cfg : Config) (tc : List ToolCall) (c : Nat)
    (h : renamePhase sk info d cfg = (tc, Outcome.exit c)) :
    c = 1 ∧ ∃ a, tc = [ToolCall.retag a] ∧ sk.exitOk a = false := by
  unfold renamePhase at h
  split at h
  · simp at h
  · split at h
    next heq => simp at h
    next heq =>
      simp only [Prod.mk.injEq] at h
      obtain ⟨h1, h2⟩ := h
      injection h2 with h2
      subst h1; subst h2
      exact rename_image_tag_error_cases _ _ _ _ _ _ _ _ _ heq

theorem renamePhase_keyError_cases (sk : Skopeo) (info : ImageInfo) (d : DestParams)
    (cfg : Config) (tc : List ToolCall) (k : String)
    (h : renamePhase sk info d cfg = (tc, Outcome.keyError k)) : tc = [] := by
  unfold renamePhase at h
  split at h
  · simp only [Prod.mk.injEq] at h
    exact h.1.symm
  · split at h <;> simp at h

end RegistrySync

namespace RegistrySync

theorem workerBody_nomodify_shape (sk : Skopeo) (ci : List (String × String)) (cfg : Config)
    (p : SrcParams) (hp : srcLookups ci cfg = Except.ok p)
    (hs : ∀ a, sk.exitOk a = true) :
    workerBody sk ci cfg true =
      ([Event.tool (ToolCall.inspect (inspectArgv p.user p.token p.imagename p.stls p.stype)),
        Event.outPut (sk.inspectOut (inspectArgv p.user p.token p.imagename p.stls p.stype)),
        Event.taskDone], Outcome.ok ()) := by
  simp [workerBody, read_image, hp, hs]

theorem workerBody_modify_rename_shape (sk : Skopeo) (ci : List (String × String))
    (cfg : Config) (p : SrcParams) (v : PyVal) (d : DestParams) (newTag : String)
    (hp : srcLookups ci cfg = Except.ok p)
    (hv : cfg.get "rename_old_tag" = some v) (hvt : pyEqStr v "true" = true)
    (hd : destLookups cfg = Except.ok d)
    (ht : cfg.getStr "tag_to_rename" = some newTag)
    (hs : ∀ a, sk.exitOk a = true) :
    workerBody sk ci cfg false =
      ([Event.tool (ToolCall.inspect (inspectArgv p.user p.token p.imagename p.stls p.stype)),
        Event.outPut (sk.inspectOut (inspectArgv p.user p.token p.imagename p.stls p.stype)),
        Event.tool (ToolCall.retag (retagArgv
          (sk.inspectOut (inspectArgv p.user p.token p.imagename p.stls p.stype))
          d.dtls d.dtype d.ns d.dtag newTag)),
        Event.tool (ToolCall.copy (copyVersionedArgv p.user p.token
          (sk.inspectOut (inspectArgv p.user p.token p.imagename p.stls p.stype))
          p.stls p.stype d.dtls d.dtype d.ns)),
        Event.tool (ToolCall.copy (copyFloatingArgv p.user p.token
          (sk.inspectOut (inspectArgv p.user p.token p.imagename p.stls p.stype))
          p.stls p.stype d.dtls d.dtype d.ns d.dtag)),
        Event.taskDone], Outcome.ok ()) := by
  simp [workerBody, read_image, renamePhase, rename_image_tag, copy_image, hp, hv, hvt,
    hd, ht, hs]

theorem workerBody_modify_norename_shape (sk : Skopeo) (ci : List (String × String))
    (cfg : Config) (p : SrcParams) (v : PyVal) (d : DestParams)
    (hp : srcLookups ci cfg = Except.ok p)
    (hv : cfg.get "rename_old_tag" = some v) (hvt : pyEqStr v "true" = false)
    (hd : destLookups cfg = Except.ok d)
    (hs : ∀ a, sk.exitOk a = true) :
    workerBody sk ci cfg false =
      ([Event.tool (ToolCall.inspect (inspectArgv p.user p.token p.imagename p.stls p.stype)),
        Event.outPut (sk.inspectOut (inspectArgv p.user p.token p.imagename p.stls p.stype)),
        Event.tool (ToolCall.copy (copyVersionedArgv p.user p.token
          (sk.inspectOut (inspectArgv p.user p.token p.imagename p.stls p.stype))
          p.stls p.stype d.dtls d.dtype d.ns)),
        Event.tool (ToolCall.copy (copyFloatingArgv p.user p.token
          (sk.inspectOut (inspectArgv p.user p.token p.imagename p.stls p.stype))
          p.stls p.stype d.dtls d.dtype d.ns d.dtag)),
        Event.taskDone], Outcome.ok ()) := by
  simp [workerBody, read_image, copy_image, hp, hv, hvt, hd, hs]

theorem srcLookups_of_wellFormed (cfg : Config) (ci : List (String × String))
    (hw : Config.wellFormed cfg = true) (hci : (ci.lookup "imagename").isSome = true) :
    ∃ p, srcLookups ci cfg = Except.ok p := by
  simp only [Config.wellFormed, Bool.and_eq_true] at hw
  obtain ⟨⟨⟨⟨⟨⟨⟨⟨⟨⟨hu, ht⟩, hstls⟩, hstype⟩, hdtls⟩, hdtype⟩, hns⟩, hdtag⟩, hren⟩, hwel⟩,
    hcl⟩ := hw
  obtain ⟨u, hu⟩ := Option.isSome_iff_exists.mp hu
  obtain ⟨t, ht⟩ := Option.isSome_iff_exists.mp ht
  obtain ⟨im, him⟩ := Option.isSome_iff_exists.mp hci
  obtain ⟨stls, hstls⟩ := Option.isSome_iff_exists.mp hstls
  obtain ⟨stype, hstype⟩ := Option.isSome_iff_exists.mp hstype
  exact ⟨⟨u, t, im, stls, stype⟩, by simp [srcLookups, hu, ht, him, hstls, hstype]⟩

theorem destLookups_of_wellFormed (cfg : Config)
    (hw : Config.wellFormed cfg = true) :
    ∃ d, destLookups cfg = Except.ok d := by
  simp only [Config.wellFormed, Bool.and_eq_true] at hw
  obtain ⟨⟨⟨⟨⟨⟨⟨⟨⟨⟨hu, ht⟩, hstls⟩, hstype⟩, hdtls⟩, hdtype⟩, hns⟩, hdtag⟩, hren⟩, hwel⟩,
    hcl⟩ := hw
  obtain ⟨dtls, hdtls⟩ := Option.isSome_iff_exists.mp hdtls
  obtain ⟨dtype, hdtype⟩ := Option.isSome_iff_exists.mp hdtype
  obtain ⟨ns, hns⟩ := Option.isSome_iff_exists.mp hns
  obtain ⟨dtag, hdtag⟩ := Option.isSome_iff_exists.mp hdtag
  exact ⟨⟨dtls, dtype, ns, dtag⟩, by simp [destLookups, hdtls, hdtype, hns, hdtag]⟩

theorem renameKey_of_wellFormed (cfg : Config)
    (hw : Config.wellFormed cfg = true) :
    ∃ v, cfg.get "rename_old_tag" = some v ∧
      (pyEqStr v "true" = true → ∃ nt, cfg.getStr "tag_to_rename" = some nt) := by
  simp only [Config.wellFormed, Bool.and_eq_true] at hw
  obtain ⟨⟨⟨⟨⟨⟨⟨⟨⟨⟨hu, ht⟩, hstls⟩, hstype⟩, hdtls⟩, hdtype⟩, hns⟩, hdtag⟩, hren⟩, hwel⟩,
    hcl⟩ := hw
  split at hren
  next v hv =>
    refine ⟨v, hv, fun hvt => ?_⟩
    rw [hvt] at hren
    simp at hren
    exact Option.isSome_iff_exists.mp hren
  next => exact absurd hren (by simp)

theorem exportKey_of_wellFormed (cfg : Config)
    (hw : Config.wellFormed cfg = true) :
    ∃ w, cfg.get "write_image_export_list" = some w ∧
      (pyEqStr w "true" = true → ∃ fn, cfg.getStr "image_export_list" = some fn) := by
  simp only [Config.wellFormed, Bool.and_eq_true] at hw
  obtain ⟨⟨⟨⟨⟨⟨⟨⟨⟨⟨hu, ht⟩, hstls⟩, hstype⟩, hdtls⟩, hdtype⟩, hns⟩, hdtag⟩, hren⟩, hwel⟩,
    hcl⟩ := hw
  split at hwel
  next w hwval =>
    refine ⟨w, hwval, fun hwt => ?_⟩
    rw [hwt] at hwel
    simp at hwel
    exact Option.isSome_iff_exists.mp hwel
  next => exact absurd hwel (by simp)

theorem containerImages_of_wellFormed (cfg : Config)
    (hw : Config.wellFormed cfg = true) :
    ∃ images, cfg.get "container_images" = some (PyVal.dictList images) ∧
      ∀ ci ∈ images, (ci.lookup "imagename").isSome = true := by
  simp only [Config.wellFormed, Bool.and_eq_true] at hw
  obtain ⟨⟨⟨⟨⟨⟨⟨⟨⟨⟨hu, ht⟩, hstls⟩, hstype⟩, hdtls⟩, hdtype⟩, hns⟩, hdtag⟩, hren⟩, hwel⟩,
    hcl⟩ := hw
  split at hcl
  next images himg =>
    exact ⟨images, himg, by simpa [List.all_eq_true] using hcl⟩
  next => exact absurd hcl (by simp)

theorem drain_counts_of_wellFormed (sk : Skopeo) (cfg : Config) (nm : Bool)
    (alive : Nat) (images : List (List (String × String)))
    (hw : Config.wellFormed cfg = true)
    (him : ∀ ci ∈ images, (ci.lookup "imagename").isSome = true)
    (hs : ∀ a, sk.exitOk a = true) (halive : 0 < alive) :
    (drain sk cfg nm alive images).failures = [] ∧
    (drain sk cfg nm alive images).pending = 0 ∧
    (drain sk cfg nm alive images).events.countP Event.isInspect = images.length ∧
    (drain sk cfg nm alive images).events.countP Event.isCopy =
      (if nm then 0 else 2 * images.length) ∧
    (drain sk cfg nm alive images).events.countP Event.isRetag =
      (if nm then 0 else if renameEnabled cfg then images.length else 0) ∧
    (drain sk cfg nm alive images).events.countP Event.isTaskDone = images.length ∧
    (drain sk cfg nm alive images).events.countP Event.isEnqueue = 0 ∧
    (drain sk cfg nm alive images).events.countP Event.isExportWrite = 0 := by
  obtain ⟨a, rfl⟩ : ∃ a, alive = Nat.succ a := ⟨alive - 1, by omega⟩
  induction images with
  | nil => simp [drain]
  | cons ci rest ih =>
    have hci : (ci.lookup "imagename").isSome = true := him ci (by simp)
    have hrest : ∀ x ∈ rest, (x.lookup "imagename").isSome = true :=
      fun x hx => him x (by simp [hx])
    obtain ⟨p, hp⟩ := srcLookups_of_wellFormed cfg ci hw hci
    obtain ⟨hf, hpend, hins, hcop, hret, htd, hen, hxw⟩ := ih hrest
    cases nm with
    | true =>
      rw [drain, workerBody_nomodify_shape sk ci cfg p hp hs]
      simp_all [Event.isInspect, Event.isCopy, Event.isRetag, Event.isTaskDone,
        Event.isEnqueue, Event.isExportWrite]
    | false =>
      obtain ⟨v, hv, hvt⟩ := renameKey_of_wellFormed cfg hw
      obtain ⟨d, hd⟩ := destLookups_of_wellFormed cfg hw
      have hren : renameEnabled cfg = pyEqStr v "true" := by
        simp [renameEnabled, hv]
      cases hbr : pyEqStr v "true" with
      | true =>
        obtain ⟨nt, hnt⟩ := hvt hbr
        rw [drain, workerBody_modify_rename_shape sk ci cfg p v d nt hp hv hbr hd
          hnt hs]
        simp_all [Event.isInspect, Event.isCopy, Event.isRetag, Event.isTaskDone,
          Event.isEnqueue, Event.isExportWrite, Nat.mul_add]
      | false =>
        rw [drain, workerBody_modify_norename_shape sk ci cfg p v d hp hv hbr hd hs]
        simp_all [Event.isInspect, Event.isCopy, Event.isRetag, Event.isTaskDone,
          Event.isEnqueue, Event.isExportWrite, Nat.mul_add]

end RegistrySync

namespace RegistrySync

theorem exportPhase_of_wellFormed (cfg : Config) (drained : List Event)
    (hw : Config.wellFormed cfg = true) :
    (exportPhase cfg drained).2 = Outcome.ok () ∧
    (exportPhase cfg drained).1.countP Event.isExportWrite =
      (if exportEnabled cfg then 1 else 0) ∧
    (exportPhase cfg drained).1.countP Event.isInspect = 0 ∧
    (exportPhase cfg drained).1.countP Event.isCopy = 0 ∧
    (exportPhase cfg drained).1.countP Event.isRetag = 0 ∧
    (exportPhase cfg drained).1.countP Event.isTaskDone = 0 ∧
    (exportPhase cfg drained).1.countP Event.isEnqueue = 0 := by
  obtain ⟨w, hwv, hfn⟩ := exportKey_of_wellFormed cfg hw
  have hexp : exportEnabled cfg = pyEqStr w "true" := by simp [exportEnabled, hwv]
  cases hbw : pyEqStr w "true" with
  | true =>
    obtain ⟨fn, hfn⟩ := hfn hbw
    simp [exportPhase, hwv, hbw, hfn, hexp, write_image_list, Event.isExportWrite,
      Event.isInspect, Event.isCopy, Event.isRetag, Event.isTaskDone, Event.isEnqueue]
  | false =>
    simp [exportPhase, hwv, hbw, hexp]

theorem mainRun_counts_of_wellFormed (cfg : Config) (sk : Skopeo) (threads : Nat)
    (nm : Bool) (hw : Config.wellFormed cfg = true) (hs : ∀ a, sk.exitOk a = true)
    (hth : 0 < threads) :
    (mainRun (LoadResult.ok cfg) sk threads nm).2 = RunOutcome.ok ∧
    (mainRun (LoadResult.ok cfg) sk threads nm).1.countP Event.isInspect = numImages cfg ∧
    (mainRun (LoadResult.ok cfg) sk threads nm).1.countP Event.isCopy =
      (if nm then 0 else 2 * numImages cfg) ∧
    (mainRun (LoadResult.ok cfg) sk threads nm).1.countP Event.isRetag =
      (if nm then 0 else if renameEnabled cfg then numImages cfg else 0) ∧
    (mainRun (LoadResult.ok cfg) sk threads nm).1.countP Event.isExportWrite =
      (if exportEnabled cfg then 1 else 0) ∧
    (mainRun (LoadResult.ok cfg) sk threads nm).1.countP Event.isTaskDone =
      numImages cfg ∧
    (mainRun (LoadResult.ok cfg) sk threads nm).1.countP Event.isEnqueue =
      numImages cfg := by
  obtain ⟨images, himg, him⟩ := containerImages_of_wellFormed cfg hw
  obtain ⟨hf, hpend, hdi, hdc, hdr2, hdt, hden, hdxw⟩ :=
    drain_counts_of_wellFormed sk cfg nm threads images hw him hs hth
  obtain ⟨heo, hee, hei, hec, her, het, heq⟩ :=
    exportPhase_of_wellFormed cfg (drain sk cfg nm threads images).events hw
  rcases hex : exportPhase cfg (drain sk cfg nm threads images).events with ⟨xevs, xout⟩
  rw [hex] at heo hee hei hec her het heq
  simp only at heo
  subst heo
  have hn : numImages cfg = images.length := by simp [numImages, himg]
  simp [mainRun, load_config, himg, hex, hf, hpend, hn, List.countP_append,
    List.countP_replicate, List.countP_map, hdi, hdc, hdr2, hdt, hden, hdxw,
    hee, hei, hec, her, het, heq, Event.isInspect, Event.isCopy, Event.isRetag,
    Event.isTaskDone, Event.isEnqueue, Event.isExportWrite, Function.comp]

end RegistrySync

namespace RegistrySync

theorem workerBody_ok_facts (sk : Skopeo) (ci : List (String × String)) (cfg : Config)
    (nm : Bool) (evs : List Event) (u : Unit)
    (h : workerBody sk ci cfg nm = (evs, Outcome.ok u)) :
    (∀ e ∈ evs, e.isFailedTool sk = false) ∧
    evs.countP Event.isTaskDone = 1 ∧
    evs.getLast? = some Event.taskDone := by
  unfold workerBody at h
  split at h
  · simp at h
  next p hp =>
    split at h
    next tc c heq => simp at h
    next tc info heq =>
      obtain ⟨a, htc, ha⟩ := read_image_ok_cases _ _ _ _ _ _ _ _ heq
      subst htc
      split at h
      · -- no_modify branch
        simp only [Prod.mk.injEq] at h
        obtain ⟨hevs, _⟩ := h
        subst hevs
        refine ⟨?_, by simp [Event.isTaskDone], by simp⟩
        intro e he
        simp only [List.map_cons, List.map_nil, List.cons_append, List.nil_append,
          List.mem_cons, List.mem_singleton] at he
        rcases he with rfl | rfl | rfl | he
        · simp [Event.isFailedTool, ToolCall.argv, ha]
        · simp [Event.isFailedTool]
        · simp [Event.isFailedTool]
        · cases he
      · -- modify path
        split at h
        · simp at h
        next v hv =>
          split at h
          · simp at h
          next d hd =>
            split at h
            next rtc c heq2 => simp at h
            next rtc k heq2 => simp at h
            next rtc u2 heq2 =>
              split at h
              next ctc c heq3 => simp at h
              next ctc u3 heq3 =>
                obtain ⟨a3, a4, hctc, ha3, ha4⟩ :=
                  copy_image_ok_cases _ _ _ _ _ _ _ _ _ _ _ heq3
                subst hctc
                have hrtc : rtc = [] ∨
                    ∃ a2, rtc = [ToolCall.retag a2] ∧ sk.exitOk a2 = true := by
                  split at heq2
                  · exact Or.inr (renamePhase_ok_cases _ _ _ _ _ heq2)
                  · simp only [Prod.mk.injEq] at heq2
                    exact Or.inl heq2.1.symm
                simp only [Prod.mk.injEq] at h
                obtain ⟨hevs, _⟩ := h
                subst hevs
                rcases hrtc with hrtc | ⟨a2, hrtc, ha2⟩ <;> subst hrtc
                · refine ⟨?_, by simp [Event.isTaskDone], by simp⟩
                  intro e he
                  simp only [List.map_cons, List.map_nil, List.cons_append,
                    List.nil_append, List.append_nil, List.mem_cons,
                    List.mem_singleton] at he
                  rcases he with rfl | rfl | rfl | rfl | rfl | he
                  · simp [Event.isFailedTool, ToolCall.argv, ha]
                  · simp [Event.isFailedTool]
                  · simp [Event.isFailedTool, ToolCall.argv, ha3]
                  · simp [Event.isFailedTool, ToolCall.argv, ha4]
                  · simp [Event.isFailedTool]
                  · cases he
                · refine ⟨?_, by simp [Event.isTaskDone], by simp⟩
                  intro e he
                  simp only [List.map_cons, List.map_nil, List.cons_append,
                    List.nil_append, List.mem_cons, List.mem_singleton] at he
                  rcases he with rfl | rfl | rfl | rfl | rfl | rfl | he
                  · simp [Event.isFailedTool, ToolCall.argv, ha]
                  · simp [Event.isFailedTool]
                  · simp [Event.isFailedTool, ToolCall.argv, ha2]
                  · simp [Event.isFailedTool, ToolCall.argv, ha3]
                  · simp [Event.isFailedTool, ToolCall.argv, ha4]
                  · simp [Event.isFailedTool]
                  · cases he

end RegistrySync

namespace RegistrySync

theorem workerBody_exit_facts (sk : Skopeo) (ci : List (String × String)) (cfg : Config)
    (nm : Bool) (evs : List Event) (c : Nat)
    (h : workerBody sk ci cfg nm = (evs, Outcome.exit c)) :
    c = 1 ∧
    (∃ tcall, evs.getLast? = some (Event.tool tcall) ∧ sk.exitOk tcall.argv = false) ∧
    (∀ e ∈ evs.dropLast, e.isFailedTool sk = false) ∧
    evs.countP Event.isTaskDone = 0 := by
  unfold workerBody at h
  split at h
  · simp at h
  next p hp =>
    split at h
    next tc c2 heq =>
      simp only [Prod.mk.injEq, Outcome.exit.injEq] at h
      obtain ⟨hevs, hc⟩ := h
      subst hevs
      subst hc
      obtain ⟨hc2, a, htc, ha⟩ := read_image_error_cases _ _ _ _ _ _ _ _ heq
      subst htc
      exact ⟨hc2, ⟨ToolCall.inspect a, by simp, by simp [ToolCall.argv, ha]⟩,
        by simp, by simp [Event.isTaskDone]⟩
    next tc info heq =>
      obtain ⟨a, htc, ha⟩ := read_image_ok_cases _ _ _ _ _ _ _ _ heq
      subst htc
      split at h
      · simp at h
      · split at h
        · simp at h
        next v hv =>
          split at h
          · simp at h
          next d hd =>
            split at h
            next rtc c2 heq2 =>
              simp only [Prod.mk.injEq, Outcome.exit.injEq] at h
              obtain ⟨hevs, hc⟩ := h
              subst hevs
              subst hc
              have hr : c2 = 1 ∧ ∃ a2, rtc = [ToolCall.retag a2] ∧
                  sk.exitOk a2 = false := by
                split at heq2
                · exact renamePhase_exit_cases _ _ _ _ _ _ heq2
                · simp at heq2
              obtain ⟨hc2, a2, hrtc, ha2⟩ := hr
              subst hrtc
              refine ⟨hc2, ⟨ToolCall.retag a2, by simp, by simp [ToolCall.argv, ha2]⟩,
                ?_, by simp [Event.isTaskDone]⟩
              intro e he
              simp at he
              rcases he with rfl | rfl
              · simp [Event.isFailedTool, ToolCall.argv, ha]
              · simp [Event.isFailedTool]
            next rtc k heq2 => simp at h
            next rtc u2 heq2 =>
              split at h
              next ctc c2 heq3 =>
                simp only [Prod.mk.injEq, Outcome.exit.injEq] at h
                obtain ⟨hevs, hc⟩ := h
                subst hevs
                subst hc
                have hrtc : rtc = [] ∨
                    ∃ a2, rtc = [ToolCall.retag a2] ∧ sk.exitOk a2 = true := by
                  split at heq2
                  · exact Or.inr (renamePhase_ok_cases _ _ _ _ _ heq2)
                  · simp only [Prod.mk.injEq] at heq2
                    exact Or.inl heq2.1.symm
                obtain ⟨hc2, hshape⟩ := copy_image_error_cases _ _ _ _ _ _ _ _ _ _ _ _ heq3
                rcases hrtc with hrtc | ⟨a2, hrtc, ha2⟩ <;> subst hrtc
                · rcases hshape with ⟨a3, hctc, ha3⟩ | ⟨a3, a4, hctc, ha3, ha4⟩ <;>
                    subst hctc
                  · refine ⟨hc2, ⟨ToolCall.copy a3, by simp,
                      by simp [ToolCall.argv, ha3]⟩, ?_, by simp [Event.isTaskDone]⟩
                    intro e he
                    simp at he
                    rcases he with rfl | rfl
                    · simp [Event.isFailedTool, ToolCall.argv, ha]
                    · simp [Event.isFailedTool]
                  · refine ⟨hc2, ⟨ToolCall.copy a4, by simp,
                      by simp [ToolCall.argv, ha4]⟩, ?_, by simp [Event.isTaskDone]⟩
                    intro e he
                    simp at he
                    rcases he with rfl | rfl | rfl
                    · simp [Event.isFailedTool, ToolCall.argv, ha]
                    · simp [Event.isFailedTool]
                    · simp [Event.isFailedTool, ToolCall.argv, ha3]
                · rcases hshape with ⟨a3, hctc, ha3⟩ | ⟨a3, a4, hctc, ha3, ha4⟩ <;>
                    subst hctc
                  · refine ⟨hc2, ⟨ToolCall.copy a3, by simp,
                      by simp [ToolCall.argv, ha3]⟩, ?_, by simp [Event.isTaskDone]⟩
                    intro e he
                    simp at he
                    rcases he with rfl | rfl | rfl
                    · simp [Event.isFailedTool, ToolCall.argv, ha]
                    · simp [Event.isFailedTool]
                    · simp [Event.isFailedTool, ToolCall.argv, ha2]
                  · refine ⟨hc2, ⟨ToolCall.copy a4, by simp,
                      by simp [ToolCall.argv, ha4]⟩, ?_, by simp [Event.isTaskDone]⟩
                    intro e he
                    simp at he
                    rcases he with rfl | rfl | rfl | rfl
                    · simp [Event.isFailedTool, ToolCall.argv, ha]
                    · simp [Event.isFailedTool]
                    · simp [Event.isFailedTool, ToolCall.argv, ha2]
                    · simp [Event.isFailedTool, ToolCall.argv, ha3]
              next ctc u3 heq3 => simp at h

theorem workerBody_keyError_facts (sk : Skopeo) (ci : List (String × String))
    (cfg : Config) (nm : Bool) (evs : List Event) (k : String)
    (h : workerBody sk ci cfg nm = (evs, Outcome.keyError k)) :
    (∀ e ∈ evs, e.isFailedTool sk = false) ∧
    evs.countP Event.isTaskDone = 0 := by
  unfold workerBody at h
  split at h
  · simp only [Prod.mk.injEq] at h
    obtain ⟨hevs, _⟩ := h
    subst hevs
    simp
  next p hp =>
    split at h
    next tc c2 heq => simp at h
    next tc info heq =>
      obtain ⟨a, htc, ha⟩ := read_image_ok_cases _ _ _ _ _ _ _ _ heq
      subst htc
      split at h
      · simp at h
      · split at h
        · simp only [Prod.mk.injEq] at h
          obtain ⟨hevs, _⟩ := h
          subst hevs
          constructor
          · intro e he
            simp at he
            rcases he with rfl | rfl
            · simp [Event.isFailedTool, ToolCall.argv, ha]
            · simp [Event.isFailedTool]
          · simp [Event.isTaskDone]
        next v hv =>
          split at h
          · simp only [Prod.mk.injEq] at h
            obtain ⟨hevs, _⟩ := h
            subst hevs
            constructor
            · intro e he
              simp at he
              rcases he with rfl | rfl
              · simp [Event.isFailedTool, ToolCall.argv, ha]
              · simp [Event.isFailedTool]
            · simp [Event.isTaskDone]
          next d hd =>
            split at h
            next rtc c2 heq2 => simp at h
            next rtc k2 heq2 =>
              simp only [Prod.mk.injEq] at h
              obtain ⟨hevs, _⟩ := h
              subst hevs
              have hrtc : rtc = [] := by
                split at heq2
                · exact renamePhase_keyError_cases _ _ _ _ _ _ heq2
                · simp at heq2
              subst hrtc
              constructor
              · intro e he
                simp at he
                rcases he with rfl | rfl
                · simp [Event.isFailedTool, ToolCall.argv, ha]
                · simp [Event.isFailedTool]
              · simp [Event.isTaskDone]
            next rtc u2 heq2 =>
              split at h
              next ctc c2 heq3 => simp at h
              next ctc u3 heq3 => simp at h

end RegistrySync



namespace RegistryTagDump

/-- C3: the claim states that for every image name and every non-empty tag
passed via the tag option, the inspect invocation uses the image reference
with its tag replaced by the given tag.  The code cannot do this: line 84
of src/registry_tag_dump.py concatenates the string source_registry_type
with the LIST returned by rsplit (the index 0 is missing), a TypeError that
is raised before any subprocess runs, for every non-empty tag.  This
theorem evaluates the embedded code on the override branch: the result is
`none` (the TypeError), never an inspect invocation. -/
theorem tag_override_inspect_type_error (sk : Skopeo) (u t img tls rt tag : String)
    (h : tag ≠ "") :
    RegistryTagDump.read_image sk u t img tls rt (some tag) = none := by
  simp [RegistryTagDump.read_image, RegistryTagDump.tagRefExpr, pyTruthy, pyAdd, h]

/-- Witness for C3 at the concrete input imagename ns/app:v1, tag v2. -/
theorem tag_override_inspect_type_error_witness :
    RegistryTagDump.read_image skAll "u" "tk" "ns/app:v1" "false" "docker://"
      (some "v2") = none :=
  tag_override_inspect_type_error skAll "u" "tk" "ns/app:v1" "false" "docker://" "v2"
    (by decide)

end RegistryTagDump

namespace RegistrySync

/-- C8: for every malformed or missing configuration file, the process
exits with status 1 before any worker is started and before any job is
enqueued: the trace of the run is empty (zero workerStarted events and zero
enqueue events). -/
theorem config_load_failure_exits_before_workers (r : LoadResult) (sk : Skopeo)
    (threads : Nat) (nm : Bool) (h : ∀ c, r ≠ LoadResult.ok c) :
    (mainRun r sk threads nm).2 = RunOutcome.exit 1 ∧
    (mainRun r sk threads nm).1 = [] ∧
    (mainRun r sk threads nm).1.countP Event.isEnqueue = 0 ∧
    (mainRun r sk threads nm).1.countP Event.isWorkerStarted = 0 := by
  cases r with
  | ok c => exact absurd rfl (h c)
  | ioError _ => simp [mainRun, load_config]
  | yamlError => simp [mainRun, load_config]

/-- Witness for C8 at a concrete YAML parse failure. -/
theorem config_load_failure_exits_before_workers_witness :
    (mainRun LoadResult.yamlError skAll 8 false).2 = RunOutcome.exit 1 ∧
    (mainRun LoadResult.yamlError skAll 8 false).1 = [] ∧
    (mainRun LoadResult.yamlError skAll 8 false).1.countP Event.isEnqueue = 0 ∧
    (mainRun LoadResult.yamlError skAll 8 false).1.countP Event.isWorkerStarted = 0 :=
  config_load_failure_exits_before_workers LoadResult.yamlError skAll 8 false
    (fun _ hc => nomatch hc)

/-- C7: for every job that reaches the copy phase (the first copy
invocation exits zero), copy is invoked exactly twice; both argvs read the
same source reference (built once from the single inspect result of the
job) at position 6, the first targets the destination namespace and name
label tagged version-release, and the second targets the same image tagged
with the configured destination tag. -/
theorem copy_twice_same_source_reference (sk : Skopeo) (u t : String)
    (info : ImageInfo) (stls stype dtls dtype ns dtag : String)
    (h1 : sk.exitOk (copyVersionedArgv u t info stls stype dtls dtype ns) = true) :
    (copy_image sk u t info stls stype dtls dtype ns dtag).1 =
      [ToolCall.copy (copyVersionedArgv u t info stls stype dtls dtype ns),
       ToolCall.copy (copyFloatingArgv u t info stls stype dtls dtype ns dtag)] ∧
    (copyVersionedArgv u t info stls stype dtls dtype ns)[6]? =
      some (copySrcRef info stype) ∧
    (copyFloatingArgv u t info stls stype dtls dtype ns dtag)[6]? =
      some (copySrcRef info stype) ∧
    (copyVersionedArgv u t info stls stype dtls dtype ns)[7]? =
      some (dtype ++ ns ++ info.Labels.name ++ ":" ++ info.Labels.version ++ "-"
        ++ info.Labels.release) ∧
    (copyFloatingArgv u t info stls stype dtls dtype ns dtag)[7]? =
      some (dtype ++ ns ++ info.Labels.name ++ ":" ++ dtag) := by
  refine ⟨?_, by simp [copyVersionedArgv], by simp [copyFloatingArgv],
    by simp [copyVersionedArgv, String.append_assoc],
    by simp [copyFloatingArgv, String.append_assoc]⟩
  simp only [copy_image]
  rw [if_pos h1]
  split <;> rfl

/-- Witness for C7 at concrete inputs under the all-success oracle. -/
theorem copy_twice_same_source_reference_witness :
    (copy_image skAll "u" "tk" infoSample "false" "docker://" "false" "docker://"
        "destns/" "latest").1 =
      [ToolCall.copy (copyVersionedArgv "u" "tk" infoSample "false" "docker://"
         "false" "docker://" "destns/"),
       ToolCall.copy (copyFloatingArgv "u" "tk" infoSample "false" "docker://"
         "false" "docker://" "destns/" "latest")] ∧
    (copyVersionedArgv "u" "tk" infoSample "false" "docker://" "false" "docker://"
        "destns/")[6]? = some (copySrcRef infoSample "docker://") ∧
    (copyFloatingArgv "u" "tk" infoSample "false" "docker://" "false" "docker://"
        "destns/" "latest")[6]? = some (copySrcRef infoSample "docker://") ∧
    (copyVersionedArgv "u" "tk" infoSample "false" "docker://" "false" "docker://"
        "destns/")[7]? = some ("docker://" ++ "destns/" ++ infoSample.Labels.name
        ++ ":" ++ infoSample.Labels.version ++ "-" ++ infoSample.Labels.release) ∧
    (copyFloatingArgv "u" "tk" infoSample "false" "docker://" "false" "docker://"
        "destns/" "latest")[7]? = some ("docker://" ++ "destns/"
        ++ infoSample.Labels.name ++ ":" ++ "latest") :=
  copy_twice_same_source_reference skAll "u" "tk" infoSample "false" "docker://"
    "false" "docker://" "destns/" "latest" rfl

/-- C10: for every copy and retag invocation, the destination references
take their image name component from the inspected name label, never from
the configured imagename (which is not even an argument of copy_image or
rename_image_tag), and the configured namespace is concatenated directly in
front of the label with no separator inserted. -/
theorem destination_refs_use_name_label (sk : Skopeo) (u t : String)
    (info : ImageInfo) (stls stype dtls dtype ns dtag old new : String)
    (h1 : sk.exitOk (copyVersionedArgv u t info stls stype dtls dtype ns) = true) :
    ((copy_image sk u t info stls stype dtls dtype ns dtag).1.map
        (fun c => c.argv.getD 7 "")) =
      [dtype ++ (ns ++ info.Labels.name) ++ ":" ++ info.Labels.version ++ "-"
        ++ info.Labels.release,
       dtype ++ (ns ++ info.Labels.name) ++ ":" ++ dtag] ∧
    (rename_image_tag sk info dtls dtype ns old new).1 =
      [ToolCall.retag (retagArgv info dtls dtype ns old new)] ∧
    (retagArgv info dtls dtype ns old new)[4]? =
      some (dtype ++ (ns ++ info.Labels.name) ++ ":" ++ old) ∧
    (retagArgv info dtls dtype ns old new)[5]? =
      some (dtype ++ (ns ++ info.Labels.name) ++ ":" ++ new) := by
  refine ⟨?_, ?_, by simp [retagArgv, String.append_assoc],
    by simp [retagArgv, String.append_assoc]⟩
  · have : (copy_image sk u t info stls stype dtls dtype ns dtag).1 =
        [ToolCall.copy (copyVersionedArgv u t info stls stype dtls dtype ns),
         ToolCall.copy (copyFloatingArgv u t info stls stype dtls dtype ns dtag)] := by
      simp only [copy_image]
      rw [if_pos h1]
      split <;> rfl
    rw [this]
    simp [copyVersionedArgv, copyFloatingArgv, ToolCall.argv, String.append_assoc]
  · simp only [rename_image_tag]
    split <;> rfl

/-- Witness for C10 at concrete inputs under the all-success oracle. -/
theorem destination_refs_use_name_label_witness :
    ((copy_image skAll "u" "tk" infoSample "false" "docker://" "false" "docker://"
        "destns/" "latest").1.map (fun c => c.argv.getD 7 "")) =
      ["docker://" ++ ("destns/" ++ infoSample.Labels.name) ++ ":"
        ++ infoSample.Labels.version ++ "-" ++ infoSample.Labels.release,
       "docker://" ++ ("destns/" ++ infoSample.Labels.name) ++ ":" ++ "latest"] ∧
    (rename_image_tag skAll infoSample "false" "docker://" "destns/" "latest"
        "previous").1 =
      [ToolCall.retag (retagArgv infoSample "false" "docker://" "destns/" "latest"
        "previous")] ∧
    (retagArgv infoSample "false" "docker://" "destns/" "latest" "previous")[4]? =
      some ("docker://" ++ ("destns/" ++ infoSample.Labels.name) ++ ":" ++ "latest") ∧
    (retagArgv infoSample "false" "docker://" "destns/" "latest" "previous")[5]? =
      some ("docker://" ++ ("destns/" ++ infoSample.Labels.name) ++ ":" ++ "previous") :=
  destination_refs_use_name_label skAll "u" "tk" infoSample "false" "docker://"
    "false" "docker://" "destns/" "latest" "latest" "previous" rfl

end RegistrySync

namespace RegistrySync

/-- C2 counterexample: the claim states that a worker calls task_done
exactly once for every dequeued job whether the processing succeeded or
failed.  At this concrete input the inspect subprocess fails, the worker
iteration takes the sys.exit(1) path of read_image (lines 92 to 94), and
task_done is never called for the dequeued job. -/
theorem failed_job_never_marked_done_counterexample :
    (workerBody skNone [("imagename", "ns/app")] cfgSample false).2 = Outcome.exit 1 ∧
    (workerBody skNone [("imagename", "ns/app")] cfgSample false).1.countP
      Event.isTaskDone = 0 := by decide

/-- C2 as amended: a worker calls task_done exactly once per dequeued job
only when the processing of that job completes without error (and the call
is the final action of the iteration); on every failure path, tool failure
or missing configuration key, the iteration ends before task_done, so a
failed job is never marked done and the drain barrier is left
unsatisfiable. -/
theorem task_done_exactly_once_iff_job_ok (sk : Skopeo)
    (ci : List (String × String)) (cfg : Config) (nm : Bool)
    (evs : List Event) (out : Outcome Unit)
    (h : workerBody sk ci cfg nm = (evs, out)) :
    (out = Outcome.ok () → evs.countP Event.isTaskDone = 1 ∧
      evs.getLast? = some Event.taskDone) ∧
    (out ≠ Outcome.ok () → evs.countP Event.isTaskDone = 0) := by
  cases out with
  | ok u =>
    cases u
    obtain ⟨_, hcount, hlast⟩ := workerBody_ok_facts _ _ _ _ _ _ h
    exact ⟨fun _ => ⟨hcount, hlast⟩, fun hne => absurd rfl hne⟩
  | exit c =>
    obtain ⟨_, _, _, hcount⟩ := workerBody_exit_facts _ _ _ _ _ _ h
    exact ⟨fun hh => absurd hh (by simp), fun _ => hcount⟩
  | keyError k =>
    obtain ⟨_, hcount⟩ := workerBody_keyError_facts _ _ _ _ _ _ h
    exact ⟨fun hh => absurd hh (by simp), fun _ => hcount⟩

/-- Witness for the amended C2 at a successfully processed job. -/
theorem task_done_exactly_once_iff_job_ok_witness :
    (workerBody skAll [("imagename", "ns/app")] cfgSample false).1.countP
      Event.isTaskDone = 1 :=
  ((task_done_exactly_once_iff_job_ok skAll [("imagename", "ns/app")] cfgSample false
    (workerBody skAll [("imagename", "ns/app")] cfgSample false).1
    (workerBody skAll [("imagename", "ns/app")] cfgSample false).2 rfl).1
    (by decide)).1

/-- C4 counterexample: the claim states that a well-formed configuration
omitting the optional keys rename_old_tag and write_image_export_list still
completes a sync run normally.  At this concrete configuration (all other
keys present, every subprocess succeeding) no run completes normally: in
modify mode the worker dies with a KeyError on rename_old_tag at line 49,
so the job is never marked done and the run hangs at the drain barrier; in
no-modify mode the drain completes but the main thread then dies with a
KeyError on write_image_export_list at line 258. -/
theorem missing_optional_keys_counterexample :
    (mainRun (LoadResult.ok cfgNoOptionalKeys) skAll 8 false).2 =
      RunOutcome.hung [Outcome.keyError "rename_old_tag"] ∧
    (mainRun (LoadResult.ok cfgNoOptionalKeys) skAll 8 true).2 =
      RunOutcome.keyError "write_image_export_list" := by decide

/-- C4 as amended: the keys rename_old_tag and write_image_export_list are
required, not optional: a modify-mode run looks rename_old_tag up for every
job and every run looks write_image_export_list up after the drain, and a
missing key raises an uncaught KeyError instead of completing.  With both
keys present (a well-formed configuration) and every subprocess exiting
zero, the run completes normally. -/
theorem run_completes_when_required_keys_present (cfg : Config) (sk : Skopeo)
    (threads : Nat) (nm : Bool) (hw : Config.wellFormed cfg = true)
    (hs : ∀ a, sk.exitOk a = true) (hth : 0 < threads) :
    (mainRun (LoadResult.ok cfg) sk threads nm).2 = RunOutcome.ok :=
  (mainRun_counts_of_wellFormed cfg sk threads nm hw hs hth).1

/-- Witness for the amended C4 under the all-success oracle. -/
theorem run_completes_when_required_keys_present_witness :
    (mainRun (LoadResult.ok cfgSample) skAll 3 false).2 = RunOutcome.ok :=
  run_completes_when_required_keys_present cfgSample skAll 3 false (by decide)
    (fun _ => rfl) (by decide)

/-- C5: for every run with the no-modify flag set over a well-formed
configuration with N configured images, under an all-success oracle exactly
N inspect invocations occur and zero copy and zero retag invocations occur:
the destination registry is never written. -/
theorem no_modify_only_inspect_calls (cfg : Config) (sk : Skopeo) (threads : Nat)
    (hw : Config.wellFormed cfg = true) (hs : ∀ a, sk.exitOk a = true)
    (hth : 0 < threads) :
    (mainRun (LoadResult.ok cfg) sk threads true).1.countP Event.isInspect =
      numImages cfg ∧
    (mainRun (LoadResult.ok cfg) sk threads true).1.countP Event.isCopy = 0 ∧
    (mainRun (LoadResult.ok cfg) sk threads true).1.countP Event.isRetag = 0 := by
  obtain ⟨_, hi, hc, hr, _, _, _⟩ :=
    mainRun_counts_of_wellFormed cfg sk threads true hw hs hth
  simp only [if_pos rfl] at hc hr
  exact ⟨hi, hc, hr⟩

/-- Witness for C5 with one configured image. -/
theorem no_modify_only_inspect_calls_witness :
    (mainRun (LoadResult.ok cfgSample) skAll 3 true).1.countP Event.isInspect =
      numImages cfgSample ∧
    (mainRun (LoadResult.ok cfgSample) skAll 3 true).1.countP Event.isCopy = 0 ∧
    (mainRun (LoadResult.ok cfgSample) skAll 3 true).1.countP Event.isRetag = 0 :=
  no_modify_only_inspect_calls cfgSample skAll 3 (by decide) (fun _ => rfl) (by decide)

/-- C9: the rename branch and the export-list write are taken exactly when
the corresponding configuration value is the exact string true: over a
well-formed configuration, a modify-mode all-success run issues one retag
per image when rename_old_tag is the string true and none for any other
value (a YAML boolean true or the string True included), and writes the
export list exactly when write_image_export_list is the string true. -/
theorem branches_require_exact_true_string (cfg : Config) (sk : Skopeo)
    (threads : Nat) (v w : PyVal) (hw : Config.wellFormed cfg = true)
    (hs : ∀ a, sk.exitOk a = true) (hth : 0 < threads)
    (hv : cfg.get "rename_old_tag" = some v)
    (hwv : cfg.get "write_image_export_list" = some w) :
    (mainRun (LoadResult.ok cfg) sk threads false).1.countP Event.isRetag =
      (if v = PyVal.str "true" then numImages cfg else 0) ∧
    (mainRun (LoadResult.ok cfg) sk threads false).1.countP Event.isExportWrite =
      (if w = PyVal.str "true" then 1 else 0) := by
  obtain ⟨_, _, _, hr, he, _, _⟩ :=
    mainRun_counts_of_wellFormed cfg sk threads false hw hs hth
  have h1 : renameEnabled cfg = pyEqStr v "true" := by simp [renameEnabled, hv]
  have h2 : exportEnabled cfg = pyEqStr w "true" := by simp [exportEnabled, hwv]
  rw [h1] at hr
  rw [h2] at he
  simp only [Bool.false_eq_true, if_false] at hr
  constructor
  · cases hb : pyEqStr v "true" with
    | true =>
      rw [hb] at hr
      rw [if_pos ((pyEqStr_iff v "true").mp hb)]
      simpa using hr
    | false =>
      rw [hb] at hr
      rw [if_neg (fun hveq => by rw [hveq] at hb; simp [pyEqStr] at hb)]
      simpa using hr
  · cases hb : pyEqStr w "true" with
    | true =>
      rw [hb] at he
      rw [if_pos ((pyEqStr_iff w "true").mp hb)]
      simpa using he
    | false =>
      rw [hb] at he
      rw [if_neg (fun hweq => by rw [hweq] at hb; simp [pyEqStr] at hb)]
      simpa using he

/-- Witness for C9: rename_old_tag a YAML boolean true and
write_image_export_list the string True leave both branches untaken. -/
theorem branches_require_exact_true_string_witness :
    (mainRun (LoadResult.ok cfgBoolRename) skAll 3 false).1.countP Event.isRetag =
      (if PyVal.bool true = PyVal.str "true" then numImages cfgBoolRename else 0) ∧
    (mainRun (LoadResult.ok cfgBoolRename) skAll 3 false).1.countP
      Event.isExportWrite = (if PyVal.str "True" = PyVal.str "true" then 1 else 0) :=
  branches_require_exact_true_string cfgBoolRename skAll 3 (PyVal.bool true)
    (PyVal.str "True") (by decide) (fun _ => rfl) (by decide) (by decide) (by decide)

end RegistrySync

namespace RegistrySync

/-- C1: the claim, with the spec, states that a non-zero exit of any
inspect, copy or retag subprocess terminates the whole process immediately
with exit code 1, aborting the entire run at the first failure.  The code
does not do this: the three wrappers are called only from worker threads
(RegistrySyncWorker.run, lines 41, 50 and 58), where the sys.exit(1) at
lines 94, 140 and 167 raises SystemExit and kills only the failing worker;
the surviving workers keep dequeuing and fully processing the remaining
jobs, the failed job is never marked done, and sync_queue.join() at line
256 then blocks forever, so the process hangs and never exits with code 1.
This theorem evaluates the run at a failing input - three configured
images, two workers, the inspect of the first image failing: the outcome is
the hung drain barrier carrying the dead worker, not a process exit; the
remaining jobs still issue their subprocesses after the failure (three
inspects and four copies in total), and the final trace event is the
task_done of a later job, not the failed call. -/
theorem tool_failure_hangs_run_instead_of_exit_1 :
    (mainRun (LoadResult.ok cfgThree) skFailFirst 2 false).2 =
      RunOutcome.hung [Outcome.exit 1] ∧
    (∀ c : Nat, (mainRun (LoadResult.ok cfgThree) skFailFirst 2 false).2 ≠
      RunOutcome.exit c) ∧
    (∃ e ∈ (mainRun (LoadResult.ok cfgThree) skFailFirst 2 false).1,
      e.isFailedTool skFailFirst = true) ∧
    (mainRun (LoadResult.ok cfgThree) skFailFirst 2 false).1.countP
      Event.isInspect = 3 ∧
    (mainRun (LoadResult.ok cfgThree) skFailFirst 2 false).1.countP
      Event.isCopy = 4 ∧
    (mainRun (LoadResult.ok cfgThree) skFailFirst 2 false).1.getLast? =
      some Event.taskDone := by
  have h0 : (mainRun (LoadResult.ok cfgThree) skFailFirst 2 false).2 =
      RunOutcome.hung [Outcome.exit 1] := by decide
  refine ⟨h0, ?_, by decide, by decide, by decide, by decide⟩
  intro c h
  rw [h0] at h
  exact absurd h (by simp)

/-- C6: for every job processed with the rename policy enabled (the
rename_old_tag value is the string true) and no-modify unset, under an
all-success oracle the retag invocation occurs exactly once and the copy
invocations exactly twice, and in the subprocess-call order of the job no
retag ever follows a copy: the retag strictly precedes both copy
invocations. -/
theorem retag_before_both_copies (sk : Skopeo) (ci : List (String × String))
    (cfg : Config) (hw : Config.wellFormed cfg = true)
    (hci : (ci.lookup "imagename").isSome = true)
    (hren : cfg.get "rename_old_tag" = some (PyVal.str "true"))
    (hs : ∀ a, sk.exitOk a = true) :
    (toolCallsOf (workerBody sk ci cfg false).1).countP ToolCall.isRetagCall = 1 ∧
    (toolCallsOf (workerBody sk ci cfg false).1).countP ToolCall.isCopyCall = 2 ∧
    List.Pairwise (fun a b => a.isCopyCall = true → b.isRetagCall = false)
      (toolCallsOf (workerBody sk ci cfg false).1) := by
  obtain ⟨p, hp⟩ := srcLookups_of_wellFormed cfg ci hw hci
  obtain ⟨v, hv, hvt⟩ := renameKey_of_wellFormed cfg hw
  obtain ⟨d, hd⟩ := destLookups_of_wellFormed cfg hw
  rw [hren] at hv
  injection hv with hv
  subst hv
  have hbr : pyEqStr (PyVal.str "true") "true" = true := by decide
  obtain ⟨nt, hnt⟩ := hvt hbr
  rw [workerBody_modify_rename_shape sk ci cfg p (PyVal.str "true") d nt hp hren hbr
    hd hnt hs]
  simp [toolCallsOf, List.pairwise_cons, ToolCall.isRetagCall, ToolCall.isCopyCall]

/-- Witness for C6 over the sample configuration (rename enabled). -/
theorem retag_before_both_copies_witness :
    (toolCallsOf (workerBody skAll [("imagename", "ns/app")] cfgSample false).1).countP
      ToolCall.isRetagCall = 1 ∧
    (toolCallsOf (workerBody skAll [("imagename", "ns/app")] cfgSample false).1).countP
      ToolCall.isCopyCall = 2 ∧
    List.Pairwise (fun a b => a.isCopyCall = true → b.isRetagCall = false)
      (toolCallsOf (workerBody skAll [("imagename", "ns/app")] cfgSample false).1) :=
  retag_before_both_copies skAll [("imagename", "ns/app")] cfgSample (by decide)
    (by decide) (by decide) (fun _ => rfl)

end RegistrySync
